import Mathlib

/-!
Verification of the streaming chat-completion client of the `mistral` Go
repository (client.go, chat.go, types).  The Go code is shallowly embedded:
pure structures become Lean structures, the SSE scan loop of
`streamChatCompletion` becomes a recursive function over the list of lines
the scanner yields, and the two external JSON decoders (`json.Unmarshal`
into a stream chunk, and into an `APIError`) are parameters of the model.
The `select` between chunk delivery and context cancellation is modelled by
a schedule `cancelAfter : Option Nat`: `some n` means the context's done
channel wins the select at the attempt to hand off chunk number n (zero
based), i.e. after n successful hand-offs; `none` means the consumer always
receives.  A list of lines models a cleanly readable body, so
`scanner.Err() = nil` on exhaustion, as in client.go lines 342-346.
-/

namespace Mistral

/-- FunctionCall (types): a function call made by the model. -/
structure FunctionCall where
  name : String
  arguments : String
deriving Repr, DecidableEq

/-- ToolCall (types): a tool call made by the model. -/
structure ToolCall where
  id : String
  type : String
  function : FunctionCall
deriving Repr, DecidableEq

/-- ChatMessage (types).  The Go `Content` field is `interface\x7b\x7d`
(string or structured parts); it is modelled as its JSON text. -/
structure ChatMessage where
  role : String
  content : String
  name : String
  toolCallID : String
  toolCalls : List ToolCall
deriving Repr, DecidableEq

/-- ChatCompletionChoice (chat.go): one completion choice; during streaming
the incremental fragment sits in `delta`. -/
structure ChatCompletionChoice where
  index : Int
  message : ChatMessage
  finishReason : String
  delta : Option ChatMessage
deriving Repr, DecidableEq

/-- ChatCompletionStreamResponse (chat.go): one streaming response chunk. -/
structure ChatCompletionStreamResponse where
  id : String
  object : String
  created : Int
  model : String
  choices : List ChatCompletionChoice
deriving Repr, DecidableEq

/-- ToolFunctionDetails (types).  `Parameters` is a JSON-schema map
`map[string]interface\x7b\x7d`, modelled as an association list of JSON
texts. -/
structure ToolFunctionDetails where
  name : String
  description : String
  parameters : List (String × String)
deriving Repr, DecidableEq

/-- Tool (types): a tool the model may call. -/
structure Tool where
  type : String
  function : ToolFunctionDetails
deriving Repr, DecidableEq

/-- ResponseFormat (types): "text" or "json_object". -/
structure ResponseFormat where
  type : String
deriving Repr, DecidableEq

/-- ChatCompletionRequest (chat.go lines 4-22), field for field.  Go
`*float64` becomes `Option Float`, `*int` becomes `Option Int`,
`map[string]interface\x7b\x7d` an association list of JSON texts, and the
string type `ToolChoice` a `String`. -/
structure ChatCompletionRequest where
  model : String
  messages : List ChatMessage
  temperature : Option Float
  topP : Option Float
  maxTokens : Option Int
  minTokens : Option Int
  stream : Bool
  stop : List String
  randomSeed : Option Int
  tools : List Tool
  toolChoice : String
  responseFormat : Option ResponseFormat
  safePrompt : Bool
  n : Option Int
  presencePenalty : Option Float
  frequencyPenalty : Option Float
  metadata : List (String × String)

/-- APIError (types): an error response from the Mistral API.  `StatusCode`
carries the json tag "-" and is only ever set from the HTTP response. -/
structure APIError where
  statusCode : Nat
  message : String
  type : String
  code : String
deriving Repr, DecidableEq

/-- APIError.Error (types): renders `Type ++ ": " ++ Message` when `Type` is
non-empty and `Message` alone otherwise. -/
def APIError.Error (e : APIError) : String :=
  if e.type ≠ "" then e.type ++ ": " ++ e.message else e.message

/-- Go strings.HasPrefix: whether p is a leading block of s.  Stated on the
character list, where it evaluates; on valid UTF-8 this coincides with Go's
byte-level comparison. -/
def stringsHasPre (s p : String) : Bool :=
  s.toList.take p.toList.length == p.toList

/-- Go strings.TrimPrefix: the string without the given leading marker, or
unchanged when the marker is absent. -/
def stringsTrimPre (s p : String) : String :=
  if stringsHasPre s p then s.drop p.length else s

/-- handleErrorResponse (client.go lines 193-206).  `ue` stands for
`json.Unmarshal` of the body into an `APIError`; the decoder never touches
`StatusCode` (json tag "-"), and the code overwrites it with the response
status in the success branch anyway.  On decode failure the raw body text
becomes the message and type/code keep their zero value `""`. -/
def handleErrorResponse (ue : String → Option APIError) (statusCode : Nat)
    (body : String) : APIError :=
  match ue body with
  | none => { statusCode := statusCode, message := body, type := "", code := "" }
  | some apiError => { apiError with statusCode := statusCode }

/-- The terminal error of one streaming session, as `streamChatCompletion`
returns it (client.go lines 308-347). -/
inductive StreamError where
  | api (e : APIError)
  | parseError (payload : String)
  | ctxCanceled
deriving Repr, DecidableEq

/-- The scanner loop of streamChatCompletion (client.go lines 318-341).
`u` stands for `json.Unmarshal` of a payload into a chunk.  Returns the
chunks handed to the consumer in order, and the terminal error (`none` when
the function returns nil). -/
def streamLoop (u : String → Option ChatCompletionStreamResponse) :
    Option Nat → List String → List ChatCompletionStreamResponse × Option StreamError
  | _, [] => ([], none)
  | cancelAfter, line :: rest =>
    if stringsHasPre line "data: " then
      let data := stringsTrimPre line "data: "
      if data = "[DONE]" then ([], none)
      else
        match u data with
        | none => ([], some (StreamError.parseError data))
        | some chunk =>
          match cancelAfter with
          | some 0 => ([], some StreamError.ctxCanceled)
          | some (m + 1) =>
            let r := streamLoop u (some m) rest
            (chunk :: r.1, r.2)
          | none =>
            let r := streamLoop u none rest
            (chunk :: r.1, r.2)
    else streamLoop u cancelAfter rest

/-- The HTTP response the transport hands to streamChatCompletion: its
status code, its raw body (read whole on the error path), and the same body
as the list of lines `bufio.Scanner` yields on the success path. -/
structure HTTPResponse where
  statusCode : Nat
  body : String
  lines : List String

/-- streamChatCompletion from the response onward (client.go lines
314-347): a status other than 200 is handed to handleErrorResponse and no
chunk is produced; otherwise the scanner loop runs over the body's lines. -/
def streamChatCompletion (ue : String → Option APIError)
    (u : String → Option ChatCompletionStreamResponse)
    (cancelAfter : Option Nat) (resp : HTTPResponse) :
    List ChatCompletionStreamResponse × Option StreamError :=
  if resp.statusCode ≠ 200 then
    ([], some (StreamError.api (handleErrorResponse ue resp.statusCode resp.body)))
  else
    streamLoop u cancelAfter resp.lines

/-- The request effect of CreateChatCompletionStream (client.go line 266,
`req.Stream = true`): the state of the caller's request object after the
controller marks it as streaming. -/
def markRequestStreaming (req : ChatCompletionRequest) : ChatCompletionRequest :=
  { req with stream := true }

/-- The payloads of the lines carrying the `data: ` marker, in order, with
the marker stripped. -/
def dataPayloads (lines : List String) : List String :=
  lines.filterMap fun line =>
    if stringsHasPre line "data: " then some (stringsTrimPre line "data: ") else none

/-- A block of lines is well formed for decoder `u` when every `data: `
payload in it is neither the sentinel nor a decode failure. -/
def WellFormedDataLines (u : String → Option ChatCompletionStreamResponse)
    (lines : List String) : Prop :=
  ∀ p ∈ dataPayloads lines, p ≠ "[DONE]" ∧ (u p).isSome = true

instance (u : String → Option ChatCompletionStreamResponse) (lines : List String) :
    Decidable (WellFormedDataLines u lines) :=
  inferInstanceAs (Decidable (∀ p ∈ dataPayloads lines, _ ∧ _))

theorem dataPayloads_cons_skip (line : String) (rest : List String)
    (h : stringsHasPre line "data: " = false) :
    dataPayloads (line :: rest) = dataPayloads rest := by
  simp [dataPayloads, h]

theorem dataPayloads_cons_data (line : String) (rest : List String)
    (h : stringsHasPre line "data: " = true) :
    dataPayloads (line :: rest) = stringsTrimPre line "data: " :: dataPayloads rest := by
  simp [dataPayloads, h]

theorem wellFormed_cons (u : String → Option ChatCompletionStreamResponse)
    (line : String) (rest : List String)
    (h : WellFormedDataLines u (line :: rest)) :
    WellFormedDataLines u rest := by
  intro p hp
  by_cases hs : stringsHasPre line "data: "
  · exact h p (by rw [dataPayloads_cons_data line rest hs]; exact List.mem_cons_of_mem _ hp)
  · exact h p (by rw [dataPayloads_cons_skip line rest (by simpa using hs)]; exact hp)

theorem wellFormed_head (u : String → Option ChatCompletionStreamResponse)
    (line : String) (rest : List String)
    (h : WellFormedDataLines u (line :: rest)) (hs : stringsHasPre line "data: " = true) :
    stringsTrimPre line "data: " ≠ "[DONE]"
      ∧ (u (stringsTrimPre line "data: ")).isSome = true :=
  h (stringsTrimPre line "data: ")
    (by rw [dataPayloads_cons_data line rest hs]; exact List.mem_cons_self _ _)

theorem streamLoop_cons_skip (u : String → Option ChatCompletionStreamResponse)
    (ca : Option Nat) (line : String) (rest : List String)
    (h : stringsHasPre line "data: " = false) :
    streamLoop u ca (line :: rest) = streamLoop u ca rest := by
  simp [streamLoop, h]

theorem streamLoop_cons_done (u : String → Option ChatCompletionStreamResponse)
    (ca : Option Nat) (line : String) (rest : List String)
    (hs : stringsHasPre line "data: " = true)
    (hd : stringsTrimPre line "data: " = "[DONE]") :
    streamLoop u ca (line :: rest) = ([], none) := by
  simp [streamLoop, hs, hd]

theorem streamLoop_cons_fail (u : String → Option ChatCompletionStreamResponse)
    (ca : Option Nat) (line : String) (rest : List String)
    (hs : stringsHasPre line "data: " = true)
    (hd : stringsTrimPre line "data: " ≠ "[DONE]")
    (hu : u (stringsTrimPre line "data: ") = none) :
    streamLoop u ca (line :: rest)
      = ([], some (StreamError.parseError (stringsTrimPre line "data: "))) := by
  simp [streamLoop, hs, hd, hu]

theorem streamLoop_cons_deliver_none (u : String → Option ChatCompletionStreamResponse)
    (line : String) (rest : List String) (c : ChatCompletionStreamResponse)
    (hs : stringsHasPre line "data: " = true)
    (hd : stringsTrimPre line "data: " ≠ "[DONE]")
    (hu : u (stringsTrimPre line "data: ") = some c) :
    streamLoop u none (line :: rest)
      = (c :: (streamLoop u none rest).1, (streamLoop u none rest).2) := by
  simp [streamLoop, hs, hd, hu]

theorem streamLoop_cons_deliver_succ (u : String → Option ChatCompletionStreamResponse)
    (m : Nat) (line : String) (rest : List String) (c : ChatCompletionStreamResponse)
    (hs : stringsHasPre line "data: " = true)
    (hd : stringsTrimPre line "data: " ≠ "[DONE]")
    (hu : u (stringsTrimPre line "data: ") = some c) :
    streamLoop u (some (m + 1)) (line :: rest)
      = (c :: (streamLoop u (some m) rest).1, (streamLoop u (some m) rest).2) := by
  simp [streamLoop, hs, hd, hu]

theorem streamLoop_cons_cancel (u : String → Option ChatCompletionStreamResponse)
    (line : String) (rest : List String) (c : ChatCompletionStreamResponse)
    (hs : stringsHasPre line "data: " = true)
    (hd : stringsTrimPre line "data: " ≠ "[DONE]")
    (hu : u (stringsTrimPre line "data: ") = some c) :
    streamLoop u (some 0) (line :: rest) = ([], some StreamError.ctxCanceled) := by
  simp [streamLoop, hs, hd, hu]

theorem streamLoop_append_none (u : String → Option ChatCompletionStreamResponse)
    (pre tail : List String) (h : WellFormedDataLines u pre) :
    streamLoop u none (pre ++ tail)
      = ((dataPayloads pre).filterMap u ++ (streamLoop u none tail).1,
         (streamLoop u none tail).2) := by
  induction pre with
  | nil => simp [dataPayloads]
  | cons line rest ih =>
    have hrest := wellFormed_cons u line rest h
    by_cases hs : stringsHasPre line "data: "
    · obtain ⟨hnd, hsome⟩ := wellFormed_head u line rest h hs
      obtain ⟨c, hc⟩ := Option.isSome_iff_exists.mp hsome
      rw [List.cons_append, streamLoop_cons_deliver_none u line (rest ++ tail) c hs hnd hc,
        dataPayloads_cons_data line rest hs, ih hrest]
      simp [hc]
    · have hs2 : stringsHasPre line "data: " = false := by simpa using hs
      rw [List.cons_append, streamLoop_cons_skip u none line (rest ++ tail) hs2,
        dataPayloads_cons_skip line rest hs2, ih hrest]

theorem streamLoop_append_some (u : String → Option ChatCompletionStreamResponse)
    (pre : List String) :
    ∀ (tail : List String) (cnt : Nat), WellFormedDataLines u pre →
    (dataPayloads pre).length ≤ cnt →
    streamLoop u (some cnt) (pre ++ tail)
      = ((dataPayloads pre).filterMap u
          ++ (streamLoop u (some (cnt - (dataPayloads pre).length)) tail).1,
         (streamLoop u (some (cnt - (dataPayloads pre).length)) tail).2) := by
  induction pre with
  | nil => intro tail cnt _ _; simp [dataPayloads]
  | cons line rest ih =>
    intro tail cnt h hlen
    have hrest := wellFormed_cons u line rest h
    by_cases hs : stringsHasPre line "data: "
    · obtain ⟨hnd, hsome⟩ := wellFormed_head u line rest h hs
      obtain ⟨c, hc⟩ := Option.isSome_iff_exists.mp hsome
      rw [dataPayloads_cons_data line rest hs] at hlen ⊢
      match cnt, hlen with
      | m + 1, hlen =>
        rw [List.cons_append, streamLoop_cons_deliver_succ u m line (rest ++ tail) c hs hnd hc,
          ih tail m hrest (Nat.le_of_succ_le_succ (by simpa using hlen))]
        simp [hc, Nat.succ_sub_succ]
    · have hs2 : stringsHasPre line "data: " = false := by simpa using hs
      rw [List.cons_append, streamLoop_cons_skip u (some cnt) line (rest ++ tail) hs2,
        dataPayloads_cons_skip line rest hs2,
        ih tail cnt hrest (by rwa [dataPayloads_cons_skip line rest hs2] at hlen)]

theorem filterMap_length_of_wellFormed (u : String → Option ChatCompletionStreamResponse)
    (lines : List String) (h : WellFormedDataLines u lines) :
    ((dataPayloads lines).filterMap u).length = (dataPayloads lines).length := by
  induction lines with
  | nil => simp [dataPayloads]
  | cons line rest ih =>
    have hrest := wellFormed_cons u line rest h
    by_cases hs : stringsHasPre line "data: "
    · obtain ⟨hnd, hsome⟩ := wellFormed_head u line rest h hs
      obtain ⟨c, hc⟩ := Option.isSome_iff_exists.mp hsome
      rw [dataPayloads_cons_data line rest hs]
      simp [hc, ih hrest]
    · have hs2 : stringsHasPre line "data: " = false := by simpa using hs
      rw [dataPayloads_cons_skip line rest hs2]
      exact ih hrest

theorem streamLoop_nil (u : String → Option ChatCompletionStreamResponse)
    (ca : Option Nat) : streamLoop u ca [] = ([], none) := rfl

/-- Sample values used by the closed witness theorems. -/
def chunkA : ChatCompletionStreamResponse :=
  { id := "cmpl-1", object := "chat.completion.chunk", created := 1,
    model := "mistral-small", choices := [] }

/-- A chunk decoder for the witnesses: payload "chunkA" decodes, all else fails. -/
def decodeSample : String → Option ChatCompletionStreamResponse :=
  fun s => if s = "chunkA" then some chunkA else none

/-- An error-body decoder for the witnesses that always fails. -/
def errDecodeNothing : String → Option APIError := fun _ => none

/-- C1: for a well-formed input ending in the [DONE] sentinel,
streamChatCompletion delivers exactly the successfully decoded `data: `
payloads preceding the sentinel, in input order, and returns nil; the
result does not depend on any line after the sentinel. -/
theorem streamChatCompletion_done_sentinel
    (ue : String → Option APIError) (u : String → Option ChatCompletionStreamResponse)
    (resp : HTTPResponse) (pre post : List String)
    (hstatus : resp.statusCode = 200)
    (hlines : resp.lines = pre ++ "data: [DONE]" :: post)
    (hwf : WellFormedDataLines u pre) :
    streamChatCompletion ue u none resp = ((dataPayloads pre).filterMap u, none) := by
  unfold streamChatCompletion
  rw [if_neg (by simp [hstatus]), hlines, streamLoop_append_none u pre _ hwf,
    streamLoop_cons_done u none "data: [DONE]" post (by decide) (by decide)]
  simp

def respC1 : HTTPResponse :=
  { statusCode := 200, body := "",
    lines := ["data: chunkA", "data: [DONE]", "data: after"] }

theorem streamChatCompletion_done_sentinel_witness :
    streamChatCompletion errDecodeNothing decodeSample none respC1 = ([chunkA], none) := by
  have h := streamChatCompletion_done_sentinel errDecodeNothing decodeSample respC1
    ["data: chunkA"] ["data: after"] rfl rfl (by decide)
  rw [h]
  rfl

/-- C2: a malformed payload on the k-th `data: ` line delivers exactly the
first k-1 chunks, makes the unmarshal failure the terminal error, and never
reaches any later line, [DONE] included; the delivered count equals the
number of data payloads preceding the malformed line. -/
theorem streamChatCompletion_malformed
    (ue : String → Option APIError) (u : String → Option ChatCompletionStreamResponse)
    (resp : HTTPResponse) (pre : List String) (bad : String) (post : List String)
    (hstatus : resp.statusCode = 200)
    (hlines : resp.lines = pre ++ bad :: post)
    (hwf : WellFormedDataLines u pre)
    (hs : stringsHasPre bad "data: " = true)
    (hnd : stringsTrimPre bad "data: " ≠ "[DONE]")
    (hfail : u (stringsTrimPre bad "data: ") = none) :
    streamChatCompletion ue u none resp
      = ((dataPayloads pre).filterMap u,
         some (StreamError.parseError (stringsTrimPre bad "data: ")))
    ∧ ((dataPayloads pre).filterMap u).length = (dataPayloads pre).length := by
  constructor
  · unfold streamChatCompletion
    rw [if_neg (by simp [hstatus]), hlines, streamLoop_append_none u pre _ hwf,
      streamLoop_cons_fail u none bad post hs hnd hfail]
    simp
  · exact filterMap_length_of_wellFormed u pre hwf

def respC2 : HTTPResponse :=
  { statusCode := 200, body := "",
    lines := ["data: chunkA", "data: bad", "data: [DONE]"] }

theorem streamChatCompletion_malformed_witness :
    streamChatCompletion errDecodeNothing decodeSample none respC2
      = ([chunkA], some (StreamError.parseError "bad")) := by
  have h := streamChatCompletion_malformed errDecodeNothing decodeSample respC2
    ["data: chunkA"] "data: bad" ["data: [DONE]"] rfl rfl (by decide) (by decide)
    (by decide) (by decide)
  rw [h.1]
  rfl

/-- C3: a response status other than 200 delivers zero chunks, and the
terminal error is the structured API error built by handleErrorResponse,
whose StatusCode field is exactly the response status. -/
theorem streamChatCompletion_error_status
    (ue : String → Option APIError) (u : String → Option ChatCompletionStreamResponse)
    (ca : Option Nat) (resp : HTTPResponse) (h : resp.statusCode ≠ 200) :
    streamChatCompletion ue u ca resp
      = ([], some (StreamError.api (handleErrorResponse ue resp.statusCode resp.body)))
    ∧ (handleErrorResponse ue resp.statusCode resp.body).statusCode = resp.statusCode := by
  constructor
  · unfold streamChatCompletion
    rw [if_pos h]
  · unfold handleErrorResponse
    cases h2 : ue resp.body <;> simp

def resp404 : HTTPResponse :=
  { statusCode := 404, body := "not found", lines := [] }

theorem streamChatCompletion_error_status_witness :
    streamChatCompletion errDecodeNothing decodeSample none resp404
      = ([], some (StreamError.api (APIError.mk 404 "not found" "" ""))) := by
  have h := streamChatCompletion_error_status errDecodeNothing decodeSample none resp404
    (by decide)
  rw [h.1]
  rfl

/-- C4: when the context's cancellation wins the hand-off of chunk n+1
(after n chunks were received by the consumer and while a further decodable
data line is pending), exactly the first n chunks are delivered, nothing at
or after chunk n+1 is delivered, and the terminal error is the context's
cancellation error. -/
theorem streamChatCompletion_cancellation
    (ue : String → Option APIError) (u : String → Option ChatCompletionStreamResponse)
    (resp : HTTPResponse) (pre : List String) (line : String) (rest : List String)
    (n : Nat)
    (hstatus : resp.statusCode = 200)
    (hlines : resp.lines = pre ++ line :: rest)
    (hwf : WellFormedDataLines u pre)
    (hn : (dataPayloads pre).length = n)
    (hs : stringsHasPre line "data: " = true)
    (hnd : stringsTrimPre line "data: " ≠ "[DONE]")
    (hsome : (u (stringsTrimPre line "data: ")).isSome = true) :
    streamChatCompletion ue u (some n) resp
      = ((dataPayloads pre).filterMap u, some StreamError.ctxCanceled)
    ∧ ((dataPayloads pre).filterMap u).length = n := by
  obtain ⟨c, hc⟩ := Option.isSome_iff_exists.mp hsome
  constructor
  · unfold streamChatCompletion
    rw [if_neg (by simp [hstatus]), hlines,
      streamLoop_append_some u pre (line :: rest) n hwf (Nat.le_of_eq hn), hn,
      Nat.sub_self, streamLoop_cons_cancel u line rest c hs hnd hc]
    simp
  · rw [filterMap_length_of_wellFormed u pre hwf]
    exact hn

def respC4 : HTTPResponse :=
  { statusCode := 200, body := "",
    lines := ["data: chunkA", "data: chunkA", "data: [DONE]"] }

theorem streamChatCompletion_cancellation_witness :
    streamChatCompletion errDecodeNothing decodeSample (some 1) respC4
      = ([chunkA], some StreamError.ctxCanceled) := by
  have h := streamChatCompletion_cancellation errDecodeNothing decodeSample respC4
    ["data: chunkA"] "data: chunkA" ["data: [DONE]"] 1 rfl rfl (by decide) (by decide)
    (by decide) (by decide) (by decide)
  rw [h.1]
  rfl

/-- C5: a well-formed input that ends by clean exhaustion with no [DONE]
sentinel delivers every decoded chunk in order with a nil terminal error,
and behaves identically to the same input followed by the sentinel. -/
theorem streamChatCompletion_clean_exhaustion
    (ue : String → Option APIError) (u : String → Option ChatCompletionStreamResponse)
    (resp : HTTPResponse)
    (hstatus : resp.statusCode = 200)
    (hwf : WellFormedDataLines u resp.lines) :
    streamChatCompletion ue u none resp = ((dataPayloads resp.lines).filterMap u, none)
    ∧ streamChatCompletion ue u none resp
        = streamChatCompletion ue u none
            { resp with lines := resp.lines ++ ["data: [DONE]"] } := by
  have h1 : streamChatCompletion ue u none resp
      = ((dataPayloads resp.lines).filterMap u, none) := by
    unfold streamChatCompletion
    rw [if_neg (by simp [hstatus])]
    have h2 := streamLoop_append_none u resp.lines [] hwf
    rw [List.append_nil] at h2
    rw [h2, streamLoop_nil]
    simp
  refine ⟨h1, ?_⟩
  rw [h1]
  unfold streamChatCompletion
  rw [if_neg (by simp [hstatus])]
  show _ = streamLoop u none (resp.lines ++ ["data: [DONE]"])
  rw [streamLoop_append_none u resp.lines ["data: [DONE]"] hwf,
    streamLoop_cons_done u none "data: [DONE]" [] (by decide) (by decide)]
  simp

def respC5 : HTTPResponse :=
  { statusCode := 200, body := "", lines := ["data: chunkA", ""] }

theorem streamChatCompletion_clean_exhaustion_witness :
    streamChatCompletion errDecodeNothing decodeSample none respC5 = ([chunkA], none) := by
  have h := streamChatCompletion_clean_exhaustion errDecodeNothing decodeSample respC5
    rfl (by decide)
  rw [h.1]
  rfl

/-- C6: a line without the `data: ` marker is skipped: processing it
continues with the remaining lines unchanged, so it contributes neither a
chunk nor an error, whatever its content and whatever the cancellation
schedule. -/
theorem streamLoop_skips_unmarked_lines
    (u : String → Option ChatCompletionStreamResponse) (ca : Option Nat)
    (line : String) (rest : List String)
    (h : stringsHasPre line "data: " = false) :
    streamLoop u ca (line :: rest) = streamLoop u ca rest :=
  streamLoop_cons_skip u ca line rest h

theorem streamLoop_skips_unmarked_lines_witness :
    streamLoop decodeSample none [": keep-alive"] = ([], none) := by
  rw [streamLoop_skips_unmarked_lines decodeSample none ": keep-alive" [] (by decide)]
  rfl

/-- C7: handleErrorResponse always stamps the exact response status code
onto the returned error, and when the structured decode of the body fails
it returns the raw body text as the message with empty type and code. -/
theorem handleErrorResponse_status_and_fallback
    (ue : String → Option APIError) (status : Nat) (body : String) :
    (handleErrorResponse ue status body).statusCode = status
    ∧ (ue body = none →
        handleErrorResponse ue status body
          = { statusCode := status, message := body, type := "", code := "" }) := by
  constructor
  · unfold handleErrorResponse
    cases h2 : ue body <;> simp
  · intro h
    unfold handleErrorResponse
    rw [h]

theorem handleErrorResponse_status_and_fallback_witness :
    (handleErrorResponse errDecodeNothing 500 "boom").statusCode = 500
    ∧ handleErrorResponse errDecodeNothing 500 "boom"
        = { statusCode := 500, message := "boom", type := "", code := "" } :=
  ⟨(handleErrorResponse_status_and_fallback errDecodeNothing 500 "boom").1,
   (handleErrorResponse_status_and_fallback errDecodeNothing 500 "boom").2 rfl⟩

/-- C8: CreateChatCompletionStream sets the Stream field of the caller's
request to true, and leaves every other field of the request unchanged. -/
theorem createChatCompletionStream_marks_request (req : ChatCompletionRequest) :
    (markRequestStreaming req).stream = true
    ∧ (markRequestStreaming req).model = req.model
    ∧ (markRequestStreaming req).messages = req.messages
    ∧ (markRequestStreaming req).temperature = req.temperature
    ∧ (markRequestStreaming req).topP = req.topP
    ∧ (markRequestStreaming req).maxTokens = req.maxTokens
    ∧ (markRequestStreaming req).minTokens = req.minTokens
    ∧ (markRequestStreaming req).stop = req.stop
    ∧ (markRequestStreaming req).randomSeed = req.randomSeed
    ∧ (markRequestStreaming req).tools = req.tools
    ∧ (markRequestStreaming req).toolChoice = req.toolChoice
    ∧ (markRequestStreaming req).responseFormat = req.responseFormat
    ∧ (markRequestStreaming req).safePrompt = req.safePrompt
    ∧ (markRequestStreaming req).n = req.n
    ∧ (markRequestStreaming req).presencePenalty = req.presencePenalty
    ∧ (markRequestStreaming req).frequencyPenalty = req.frequencyPenalty
    ∧ (markRequestStreaming req).metadata = req.metadata :=
  ⟨rfl, rfl, rfl, rfl, rfl, rfl, rfl, rfl, rfl, rfl, rfl, rfl, rfl, rfl, rfl, rfl, rfl⟩

/-- C9: APIError.Error renders Type ++ ": " ++ Message when Type is
non-empty and Message alone when Type is empty; the rendering depends only
on the message and type fields, so StatusCode and Code never appear. -/
theorem apiError_Error_rendering (e : APIError) :
    (e.type ≠ "" → e.Error = e.type ++ ": " ++ e.message)
    ∧ (e.type = "" → e.Error = e.message)
    ∧ ∀ f : APIError, f.message = e.message → f.type = e.type → f.Error = e.Error := by
  refine ⟨fun h => ?_, fun h => ?_, fun f h1 h2 => ?_⟩
  · unfold APIError.Error
    rw [if_pos h]
  · unfold APIError.Error
    rw [if_neg (by simp [h])]
  · unfold APIError.Error
    rw [h1, h2]

theorem apiError_Error_rendering_witness :
    (APIError.mk 404 "boom" "invalid_request" "1001").Error = "invalid_request: boom"
    ∧ (APIError.mk 404 "boom" "" "1001").Error = "boom" :=
  ⟨(apiError_Error_rendering (APIError.mk 404 "boom" "invalid_request" "1001")).1
     (by decide),
   (apiError_Error_rendering (APIError.mk 404 "boom" "" "1001")).2.1 rfl⟩

/-- C10: the line "data: " carries the marker with an empty payload, so it
is neither skipped nor a terminator: the empty payload goes to the JSON
decoder, which fails on empty input (Go json.Unmarshal of an empty byte
slice is a syntax error), making the line a terminal parse error; and the
line "data:[DONE]" lacks the space of the marker, so it is silently
skipped instead of ending the stream. -/
theorem streamLoop_empty_payload_and_tight_done
    (u : String → Option ChatCompletionStreamResponse) (ca : Option Nat)
    (rest rest2 : List String) (h : u "" = none) :
    streamLoop u ca ("data: " :: rest) = ([], some (StreamError.parseError ""))
    ∧ streamLoop u ca ("data:[DONE]" :: rest2) = streamLoop u ca rest2 := by
  have he : stringsTrimPre "data: " "data: " = "" := by decide
  constructor
  · rw [streamLoop_cons_fail u ca "data: " rest (by decide) (by rw [he]; decide)
      (by rw [he]; exact h), he]
  · exact streamLoop_cons_skip u ca "data:[DONE]" rest2 (by decide)

theorem streamLoop_empty_payload_and_tight_done_witness :
    streamLoop decodeSample none ["data: "] = ([], some (StreamError.parseError ""))
    ∧ streamLoop decodeSample none ["data:[DONE]"] = streamLoop decodeSample none [] :=
  streamLoop_empty_payload_and_tight_done decodeSample none [] [] rfl

end Mistral
